import Mathlib

/-!
Verification of the `iter` cursor package (`src/iterator.go`).

The Go source is shallowly embedded: the `Cursor` struct fields become a
Lean structure, the three caller-supplied operations of `Config` become
explicit function arguments, Go's `(value, error)` return pairs become
`Result × Option GoError`, and the unbounded `for` loop of `Iterate` is
given explicit fuel (the outer `Option` of its result distinguishes
running out of fuel from normal termination).
-/

namespace Iter

/-- Model of a Go error value. `isStop` records what `errors.Is(e, ErrStop)`
returns for the value — `true` both for `ErrStop` itself and for any error
wrapping it — while `code` separates distinct error identities. -/
structure GoError where
  isStop : Bool
  code : Nat
deriving DecidableEq, Repr

/-- The sentinel `var ErrStop = errors.New("iterator stopped")`. -/
def ErrStop : GoError := ⟨true, 0⟩

/-- The mutable state of `Cursor[Request, Response]` from `src/iterator.go`:
fields `response`, `request` and `next`.  The three function fields
(`hasNext`, `fetchNext`, `getFirstRequest`) are immutable for the cursor's
lifetime, so they are carried separately in a `Config` and passed to each
operation instead of being stored in the state. -/
structure Cursor (Request Response : Type) where
  response : Response
  request : Request
  next : Bool
deriving DecidableEq, Repr

/-- The `Config[Request, Response]` struct: the three caller-supplied
operations.  `fetchNext` models a Go function returning `(Response, error)`:
it always yields a `Response` component, plus `some e` when it fails. -/
structure Config (Request Response : Type) where
  hasNext : Response → Request × Bool
  fetchNext : Request → Response × Option GoError
  getFirstRequest : Unit → Request

/-- The constructor `New`: `next` starts `true`; `request` and `response`
are left at the Go zero values of their types, which the embedding takes
as explicit arguments since Lean types have no canonical zero. -/
def New (_cfg : Config Request Response) (zeroRequest : Request)
    (zeroResponse : Response) : Cursor Request Response :=
  ⟨zeroResponse, zeroRequest, true⟩

/-- The method `Next`: returns the `next` flag, no side effects. -/
def Next (c : Cursor Request Response) : Bool :=
  c.next

/-- The method `Get`.  Returns the Go pair `(Response, error)` together with
the cursor state after the call.  Mirrors the source line by line:
`if !d.next` returns `(d.response, ErrStop)`; otherwise
`d.response, err = d.fetchNext(d.request)` assigns the fetched value to the
`response` field before the error test; on error that field-updated state is
kept and the error returned; on success `d.request, d.next = d.hasNext(d.response)`. -/
def Get (cfg : Config Request Response) (c : Cursor Request Response) :
    Response × Option GoError × Cursor Request Response :=
  if !c.next then
    (c.response, some ErrStop, c)
  else
    let fr := cfg.fetchNext c.request
    let c1 : Cursor Request Response := { c with response := fr.1 }
    match fr.2 with
    | some e => (c1.response, some e, c1)
    | none =>
      let hn := cfg.hasNext c1.response
      (c1.response, none, { c1 with request := hn.1, next := hn.2 })

/-- The method `Iterate`, with explicit fuel for the `for d.Next()` loop.
The callback takes the invocation index so that callbacks with internal
state (as Go closures may have) can be expressed; the second `Nat` argument
threads the number of callback invocations made so far and is returned.
Result: `(none, c, k)` means the fuel ran out; `(some none, c, k)` means the
loop returned `nil`; `(some (some e), c, k)` means it returned error `e`.
Each step checks `Next`, calls `Get`, maps an `errors.Is(err, ErrStop)`
fetch error to `nil` and any other fetch error to itself, then invokes the
callback and treats its error the same way. -/
def Iterate (cfg : Config Request Response)
    (callback : Nat → Response → Option GoError) :
    Nat → Cursor Request Response → Nat →
    Option (Option GoError) × Cursor Request Response × Nat
  | 0, c, k => (none, c, k)
  | fuel + 1, c, k =>
    if Next c then
      match Get cfg c with
      | (_, some e, c1) =>
        if e.isStop then (some none, c1, k) else (some (some e), c1, k)
      | (r, none, c1) =>
        match callback k r with
        | some e =>
          if e.isStop then (some none, c1, k + 1)
          else (some (some e), c1, k + 1)
        | none => Iterate cfg callback fuel c1 (k + 1)
    else
      (some none, c, k)

/-- The method `Reset`: reassigns `request` from `getFirstRequest` and sets
`next` to `true`; the `response` field is untouched. -/
def Reset (cfg : Config Request Response) (c : Cursor Request Response) :
    Cursor Request Response :=
  { c with request := cfg.getFirstRequest (), next := true }

/-- Concrete config over `Nat` whose fetch always succeeds: fetching token
`i` yields page `i + 1`, and a page `r` continues with token `2 * r` while
`r < 10`. -/
def cfgA : Config Nat Nat where
  hasNext r := (2 * r, decide (r < 10))
  fetchNext i := (i + 1, none)
  getFirstRequest _ := 1

/-- Concrete config over `Nat` whose fetch always fails with the non-stop
error `⟨false, 7⟩`, returning `0` as the Go zero `Response` component. -/
def cfgFail : Config Nat Nat where
  hasNext r := (r, true)
  fetchNext _ := (0, some ⟨false, 7⟩)
  getFirstRequest _ := 0

/-- Concrete config over `Nat` whose single page is the non-zero value `5`
and is terminal: `hasNext` reports no further pages for every page. -/
def cfgTerm : Config Nat Nat where
  hasNext _ := (0, false)
  fetchNext _ := (5, none)
  getFirstRequest _ := 0

/-- Concrete config over `Nat` realizing the paginated scenario: fetching
token `i` yields page `i`, and page `r` continues with token `r + 1` while
`r < 1` — so page `0` is non-terminal and page `1` is terminal. -/
def cfgPages : Config Nat Nat where
  hasNext r := (r + 1, decide (r < 1))
  fetchNext i := (i, none)
  getFirstRequest _ := 0

/-- Concrete config over `Nat` whose fetch always fails with an error that
wraps the stop sentinel: `errors.Is(e, ErrStop)` is true although the error
is not `ErrStop` itself. -/
def cfgStopFetch : Config Nat Nat where
  hasNext r := (r, true)
  fetchNext _ := (0, some ⟨true, 3⟩)
  getFirstRequest _ := 0

/-- Modelled from the spec: the context-threading variant of `Config`, whose
`Get(ctx)` / `Iterate(ctx, ...)` core is exercised by the test file
`src/unnamed/part_001` (`FetchNext(ctx, input)`, `HasNext(ctx, result)`) but
is absent from `src/`.  Per §5/§6 of the spec, the caller-supplied
cancellation handle is an extra argument to `fetchNext` (and `hasNext`). -/
structure ConfigCtx (Ctx Request Response : Type) where
  hasNext : Ctx → Response → Request × Bool
  fetchNext : Ctx → Request → Response × Option GoError
  getFirstInput : Unit → Request

/-- Modelled from the spec: the context-threading `Get`.  Per §4.1 of the
spec, on exhaustion it fails with the stop condition; otherwise it invokes
`fetchNext` with the caller's cancellation handle and the current token; a
failed fetch propagates the error verbatim and leaves all cursor state
unchanged; a successful fetch stores the result and advances via
`hasNext`. -/
def GetCtx (cfg : ConfigCtx Ctx Request Response) (ctx : Ctx)
    (c : Cursor Request Response) :
    Response × Option GoError × Cursor Request Response :=
  if !c.next then
    (c.response, some ErrStop, c)
  else
    match cfg.fetchNext ctx c.request with
    | (_, some e) => (c.response, some e, c)
    | (r, none) =>
      let hn := cfg.hasNext ctx r
      (r, none, ⟨r, hn.1, hn.2⟩)

/-- Modelled from the spec: the context-threading `Iterate`, a loop over
`GetCtx` passing the same cancellation handle `ctx` to every step, with the
same stop/error classification as `Iterate`. -/
def IterateCtx (cfg : ConfigCtx Ctx Request Response)
    (callback : Nat → Response → Option GoError) (ctx : Ctx) :
    Nat → Cursor Request Response → Nat →
    Option (Option GoError) × Cursor Request Response × Nat
  | 0, c, k => (none, c, k)
  | fuel + 1, c, k =>
    if Next c then
      match GetCtx cfg ctx c with
      | (_, some e, c1) =>
        if e.isStop then (some none, c1, k) else (some (some e), c1, k)
      | (r, none, c1) =>
        match callback k r with
        | some e =>
          if e.isStop then (some none, c1, k + 1)
          else (some (some e), c1, k + 1)
        | none => IterateCtx cfg callback ctx fuel c1 (k + 1)
    else
      (some none, c, k)

/-- Concrete context-threading config over `Nat` whose fetch always fails
with a non-stop error recording both the handle and the token it
received. -/
def cfgCtxFail : ConfigCtx Nat Nat Nat where
  hasNext _ r := (r, true)
  fetchNext cx i := (0, some ⟨false, 100 * cx + i⟩)
  getFirstInput _ := 0

/-- C1: when `next` is true and the fetch succeeds with value `r`, `Get`
stores `r` in the `response` field, sets `(request, next)` to `hasNext r`,
and returns `r` with no error. -/
theorem Get_success_advances (cfg : Config Request Response)
    (c : Cursor Request Response) (r : Response)
    (hnext : c.next = true) (hfetch : cfg.fetchNext c.request = (r, none)) :
    Get cfg c = (r, none, ⟨r, (cfg.hasNext r).1, (cfg.hasNext r).2⟩) := by
  simp [Get, hnext, hfetch]

/-- Witness for C1 at `cfgA` and the cursor `⟨0, 3, true⟩`: fetching token
`3` yields `4`, continuation `(8, true)`. -/
theorem Get_success_advances_witness :
    Get cfgA ⟨0, 3, true⟩ = (4, none, ⟨4, 8, true⟩) :=
  Get_success_advances cfgA ⟨0, 3, true⟩ 4 rfl rfl

/-- C2: when `next` is true and the fetch fails with error `e`, `Get`
returns exactly `e` (not `ErrStop`, not wrapped) and leaves `request` and
`next` unchanged, so a retry fetches with the identical token.  (The
`response` field is nonetheless overwritten with the fetch's `Response`
component; see C4.) -/
theorem Get_fetchError_preserves (cfg : Config Request Response)
    (c : Cursor Request Response) (r : Response) (e : GoError)
    (hnext : c.next = true)
    (hfetch : cfg.fetchNext c.request = (r, some e)) :
    Get cfg c = (r, some e, ⟨r, c.request, c.next⟩) := by
  simp [Get, hnext, hfetch]

/-- Witness for C2 at `cfgFail` and the cursor `⟨9, 2, true⟩`: the error
`⟨false, 7⟩` comes back verbatim, token `2` and flag `true` are kept. -/
theorem Get_fetchError_preserves_witness :
    Get cfgFail ⟨9, 2, true⟩ = (0, some ⟨false, 7⟩, ⟨0, 2, true⟩) :=
  Get_fetchError_preserves cfgFail ⟨9, 2, true⟩ 0 ⟨false, 7⟩ rfl rfl

/-- Counterexample to C3 as stated: after `cfgTerm`'s single page `5` is
consumed the cursor is exhausted, and `Get` then returns `ErrStop` together
with the stored page `5` — not the zero value `0` of the `Nat` result
type. -/
theorem Get_after_exhaustion_counterexample :
    (Get cfgTerm (Get cfgTerm (New cfgTerm 0 0)).2.2).2.1 = some ErrStop ∧
    (Get cfgTerm (Get cfgTerm (New cfgTerm 0 0)).2.2).1 ≠ 0 := by
  decide

/-- C3 amended: on an exhausted cursor (`next = false`), `Get` returns the
stop sentinel `ErrStop` together with the stored `response` field (the most
recently fetched page — the zero value only if no page was ever stored),
changes no state, and does not call `fetchNext`: the second conjunct shows
the outcome is the same under every substitute fetch function. -/
theorem Get_after_exhaustion (cfg : Config Request Response)
    (c : Cursor Request Response) (hnext : c.next = false) :
    Get cfg c = (c.response, some ErrStop, c) ∧
    ∀ f, Get { cfg with fetchNext := f } c = (c.response, some ErrStop, c) := by
  refine ⟨?_, fun f => ?_⟩ <;> simp [Get, hnext]

/-- Witness for C3's amended theorem at `cfgTerm` and the exhausted cursor
`⟨5, 0, false⟩`. -/
theorem Get_after_exhaustion_witness :
    Get cfgTerm ⟨5, 0, false⟩ = (5, some ErrStop, ⟨5, 0, false⟩) :=
  (Get_after_exhaustion cfgTerm ⟨5, 0, false⟩ rfl).1

/-- Counterexample to C4 as stated: with prior stored response `9`, a fetch
that fails (error `⟨false, 7⟩`) nonetheless overwrites the `response` field
with the failed fetch's `Response` component `0`: the Go assignment
`d.response, err = d.fetchNext(d.request)` runs before the error test. -/
theorem Get_response_clobbered_counterexample :
    (Get cfgFail ⟨9, 2, true⟩).2.1 = some ⟨false, 7⟩ ∧
    (Get cfgFail ⟨9, 2, true⟩).2.2.response = 0 ∧
    (Get cfgFail ⟨9, 2, true⟩).2.2.response ≠ 9 := by
  decide

/-- C4 amended: every fetch attempt made by `Get` on a non-exhausted
cursor — failed or successful — stores the `Response` component returned by
`fetchNext` into the `response` field; the prior value is lost. -/
theorem Get_overwrites_response (cfg : Config Request Response)
    (c : Cursor Request Response) (r : Response) (oe : Option GoError)
    (hnext : c.next = true)
    (hfetch : cfg.fetchNext c.request = (r, oe)) :
    (Get cfg c).2.2.response = r := by
  cases oe <;> simp [Get, hnext, hfetch]

/-- Witness for C4's amended theorem at `cfgFail` and the cursor
`⟨9, 2, true⟩`: the failed fetch's component `0` is stored. -/
theorem Get_overwrites_response_witness :
    (Get cfgFail ⟨9, 2, true⟩).2.2.response = 0 :=
  Get_overwrites_response cfgFail ⟨9, 2, true⟩ 0 (some ⟨false, 7⟩) rfl rfl

/-- Helper: one `Iterate` step on an exhausted cursor ends the loop with no
error, touching nothing. -/
theorem Iterate_exhausted (cfg : Config Request Response)
    (cb : Nat → Response → Option GoError) (fuel k : Nat)
    (c : Cursor Request Response) (hnext : c.next = false) :
    Iterate cfg cb (fuel + 1) c k = (some none, c, k) := by
  simp [Iterate, Next, hnext]

/-- Helper: one `Iterate` step whose fetch fails ends the loop without
invoking the callback; a stop-matching error maps to `nil`, any other error
is returned itself. -/
theorem Iterate_fetch_err (cfg : Config Request Response)
    (cb : Nat → Response → Option GoError) (fuel k : Nat)
    (c : Cursor Request Response) (r : Response) (e : GoError)
    (hnext : c.next = true)
    (hfetch : cfg.fetchNext c.request = (r, some e)) :
    Iterate cfg cb (fuel + 1) c k =
      (some (if e.isStop then none else some e), ⟨r, c.request, c.next⟩, k) := by
  cases h : e.isStop <;> simp [Iterate, Next, Get, hnext, hfetch, h]

/-- Helper: one `Iterate` step whose fetch succeeds and whose callback
returns `nil` advances the cursor and recurses with one more invocation
counted. -/
theorem Iterate_step_cb_none (cfg : Config Request Response)
    (cb : Nat → Response → Option GoError) (fuel k : Nat)
    (c : Cursor Request Response) (r : Response)
    (hnext : c.next = true)
    (hfetch : cfg.fetchNext c.request = (r, none))
    (hcb : cb k r = none) :
    Iterate cfg cb (fuel + 1) c k =
      Iterate cfg cb fuel ⟨r, (cfg.hasNext r).1, (cfg.hasNext r).2⟩ (k + 1) := by
  simp [Iterate, Next, Get, hnext, hfetch, hcb]

/-- Helper: one `Iterate` step whose fetch succeeds and whose callback
returns an error ends the loop after that invocation; a stop-matching
callback error maps to `nil`, any other is returned itself. -/
theorem Iterate_step_cb_some (cfg : Config Request Response)
    (cb : Nat → Response → Option GoError) (fuel k : Nat)
    (c : Cursor Request Response) (r : Response) (e : GoError)
    (hnext : c.next = true)
    (hfetch : cfg.fetchNext c.request = (r, none))
    (hcb : cb k r = some e) :
    Iterate cfg cb (fuel + 1) c k =
      (some (if e.isStop then none else some e),
       ⟨r, (cfg.hasNext r).1, (cfg.hasNext r).2⟩, k + 1) := by
  cases h : e.isStop <;> simp [Iterate, Next, Get, hnext, hfetch, hcb, h]

/-- C7: `Reset` reassigns `request` from `getFirstRequest` and sets `next`
to `true`, keeping `response`; it does not consult `fetchNext` (the outcome
is the same under every substitute fetch function); `Next` is `true` right
after `New` and right after every `Reset`, before any fetch occurs. -/
theorem Reset_restores (cfg : Config Request Response)
    (c : Cursor Request Response) (zi : Request) (zr : Response) :
    Reset cfg c = ⟨c.response, cfg.getFirstRequest (), true⟩ ∧
    Next (Reset cfg c) = true ∧
    Next (New cfg zi zr) = true ∧
    ∀ f, Reset { cfg with fetchNext := f } c =
      ⟨c.response, cfg.getFirstRequest (), true⟩ :=
  ⟨rfl, rfl, rfl, fun _ => rfl⟩

/-- C8: once `next` is `false` it stays `false`: `Next` reports `false` and
changes nothing (it is a pure read), `Get` returns the cursor unchanged, an
`Iterate` loop entered in that state returns the cursor unchanged, and only
`Reset` turns the flag back to `true`. -/
theorem next_false_persists (cfg : Config Request Response)
    (cb : Nat → Response → Option GoError) (fuel k : Nat)
    (c : Cursor Request Response) (hnext : c.next = false) :
    Next c = false ∧
    Get cfg c = (c.response, some ErrStop, c) ∧
    Iterate cfg cb (fuel + 1) c k = (some none, c, k) ∧
    Next (Reset cfg c) = true := by
  refine ⟨hnext, ?_, Iterate_exhausted cfg cb fuel k c hnext, rfl⟩
  simp [Get, hnext]

/-- Witness for C8 at `cfgTerm` and the exhausted cursor `⟨5, 0, false⟩`. -/
theorem next_false_persists_witness :
    Next (⟨5, 0, false⟩ : Cursor Nat Nat) = false ∧
    Get cfgTerm ⟨5, 0, false⟩ = (5, some ErrStop, ⟨5, 0, false⟩) ∧
    Iterate cfgTerm (fun _ _ => none) 1 ⟨5, 0, false⟩ 0 =
      (some none, ⟨5, 0, false⟩, 0) ∧
    Next (Reset cfgTerm ⟨5, 0, false⟩) = true :=
  next_false_persists cfgTerm (fun _ _ => none) 0 0 ⟨5, 0, false⟩ rfl

/-- C10: when the fetch made by an `Iterate` step fails with an error `e`
such that `errors.Is(e, ErrStop)` holds, `Iterate` ends the loop and
returns `nil` — the error is swallowed, not surfaced — and the callback is
not invoked for that step. -/
theorem Iterate_swallows_stop_fetch (cfg : Config Request Response)
    (cb : Nat → Response → Option GoError) (fuel k : Nat)
    (c : Cursor Request Response) (r : Response) (e : GoError)
    (hnext : c.next = true)
    (hfetch : cfg.fetchNext c.request = (r, some e))
    (hstop : e.isStop = true) :
    Iterate cfg cb (fuel + 1) c k = (some none, ⟨r, c.request, c.next⟩, k) := by
  simp [Iterate, Next, Get, hnext, hfetch, hstop]

/-- C5: over a run of `N` non-terminal pages followed by one terminal page,
with every fetch succeeding and the callback always returning `nil`,
`Iterate` invokes the callback exactly `N + 1` times (the count advances
from `k` to `k + (N + 1)`), delivers the terminal page `results N` (it is
the response stored in the final cursor, fetched and passed to the callback
before the loop observes termination), and returns `nil`. -/
theorem Iterate_pages (cfg : Config Request Response)
    (cb : Nat → Response → Option GoError) (N : Nat)
    (inputs : Nat → Request) (results : Nat → Response)
    (c : Cursor Request Response) (k fuel : Nat)
    (hfuel : N + 2 ≤ fuel)
    (hcb : ∀ j r, cb j r = none)
    (hnext : c.next = true) (hreq : c.request = inputs 0)
    (hfetch : ∀ j, j ≤ N → cfg.fetchNext (inputs j) = (results j, none))
    (hcont : ∀ j, j < N → cfg.hasNext (results j) = (inputs (j + 1), true))
    (hterm : (cfg.hasNext (results N)).2 = false) :
    Iterate cfg cb fuel c k =
      (some none,
       ⟨results N, (cfg.hasNext (results N)).1, (cfg.hasNext (results N)).2⟩,
       k + (N + 1)) := by
  induction N generalizing inputs results c k fuel with
  | zero =>
    obtain ⟨f, rfl⟩ : ∃ f, fuel = f + 1 := ⟨fuel - 1, by omega⟩
    have hf0 : cfg.fetchNext c.request = (results 0, none) := by
      rw [hreq]; exact hfetch 0 (Nat.le_refl 0)
    rw [Iterate_step_cb_none cfg cb f k c (results 0) hnext hf0
      (hcb k (results 0))]
    obtain ⟨g, rfl⟩ : ∃ g, f = g + 1 := ⟨f - 1, by omega⟩
    rw [Iterate_exhausted cfg cb g (k + 1) _ hterm]
  | succ N ih =>
    obtain ⟨f, rfl⟩ : ∃ f, fuel = f + 1 := ⟨fuel - 1, by omega⟩
    have hf0 : cfg.fetchNext c.request = (results 0, none) := by
      rw [hreq]; exact hfetch 0 (Nat.zero_le _)
    rw [Iterate_step_cb_none cfg cb f k c (results 0) hnext hf0
      (hcb k (results 0))]
    have hc0 : cfg.hasNext (results 0) = (inputs 1, true) :=
      hcont 0 (Nat.succ_pos N)
    have happ := ih (fun j => inputs (j + 1)) (fun j => results (j + 1))
      ⟨results 0, (cfg.hasNext (results 0)).1, (cfg.hasNext (results 0)).2⟩
      (k + 1) f (by omega) (by simp [hc0]) (by simp [hc0])
      (fun j hj => hfetch (j + 1) (by omega))
      (fun j hj => hcont (j + 1) (by omega))
      hterm
    have harith : k + 1 + (N + 1) = k + (N + 1 + 1) := by omega
    rw [harith] at happ
    exact happ

/-- Witness for C5 at `cfgPages` with `N = 1`: pages `0` (non-terminal) and
`1` (terminal) are delivered, the callback runs twice, and `Iterate`
returns `nil`. -/
theorem Iterate_pages_witness :
    Iterate cfgPages (fun _ _ => none) 3 ⟨0, 0, true⟩ 0 =
      (some none, ⟨1, 2, false⟩, 2) := by
  have h := Iterate_pages cfgPages (fun _ _ => none) 1 (fun j => j)
    (fun j => j) ⟨0, 0, true⟩ 0 3 (by omega) (fun _ _ => rfl) rfl rfl
    (fun j hj => rfl) (fun j hj => by interval_cases j; rfl) rfl
  simpa using h

/-- C6: when the fetches of the first `M + 1` steps succeed, the callback
returns `nil` on its first `M` invocations and an error `e` on invocation
number `M + 1` (the claim's `K`), `Iterate` makes exactly `M + 1` callback
invocations, returns `nil` when `errors.Is(e, ErrStop)` holds, and returns
exactly `e` otherwise. -/
theorem Iterate_callback_stops (cfg : Config Request Response)
    (cb : Nat → Response → Option GoError) (M : Nat)
    (inputs : Nat → Request) (results : Nat → Response)
    (c : Cursor Request Response) (k fuel : Nat) (e : GoError)
    (hfuel : M + 1 ≤ fuel)
    (hnext : c.next = true) (hreq : c.request = inputs 0)
    (hfetch : ∀ j, j ≤ M → cfg.fetchNext (inputs j) = (results j, none))
    (hcont : ∀ j, j < M → cfg.hasNext (results j) = (inputs (j + 1), true))
    (hcb : ∀ j, j < M → cb (k + j) (results j) = none)
    (hcbe : cb (k + M) (results M) = some e) :
    Iterate cfg cb fuel c k =
      (some (if e.isStop then none else some e),
       ⟨results M, (cfg.hasNext (results M)).1, (cfg.hasNext (results M)).2⟩,
       k + (M + 1)) := by
  induction M generalizing inputs results c k fuel with
  | zero =>
    obtain ⟨f, rfl⟩ : ∃ f, fuel = f + 1 := ⟨fuel - 1, by omega⟩
    have hf0 : cfg.fetchNext c.request = (results 0, none) := by
      rw [hreq]; exact hfetch 0 (Nat.le_refl 0)
    have hcb0 : cb k (results 0) = some e := by simpa using hcbe
    rw [Iterate_step_cb_some cfg cb f k c (results 0) e hnext hf0 hcb0]
  | succ M ih =>
    obtain ⟨f, rfl⟩ : ∃ f, fuel = f + 1 := ⟨fuel - 1, by omega⟩
    have hf0 : cfg.fetchNext c.request = (results 0, none) := by
      rw [hreq]; exact hfetch 0 (Nat.zero_le _)
    have hcb0 : cb k (results 0) = none := by
      simpa using hcb 0 (Nat.succ_pos M)
    rw [Iterate_step_cb_none cfg cb f k c (results 0) hnext hf0 hcb0]
    have hc0 : cfg.hasNext (results 0) = (inputs 1, true) :=
      hcont 0 (Nat.succ_pos M)
    have happ := ih (fun j => inputs (j + 1)) (fun j => results (j + 1))
      ⟨results 0, (cfg.hasNext (results 0)).1, (cfg.hasNext (results 0)).2⟩
      (k + 1) f (by omega) (by simp [hc0]) (by simp [hc0])
      (fun j hj => hfetch (j + 1) (by omega))
      (fun j hj => hcont (j + 1) (by omega))
      (fun j hj => by
        have h := hcb (j + 1) (by omega)
        have h2 : k + (j + 1) = k + 1 + j := by omega
        rwa [h2] at h)
      (by
        have h2 : k + (M + 1) = k + 1 + M := by omega
        rwa [h2] at hcbe)
    have harith : k + 1 + (M + 1) = k + (M + 1 + 1) := by omega
    rw [harith] at happ
    exact happ

/-- Witness for C6 at `cfgPages` with `M = 1`: the callback returns `nil`
on its first invocation and the non-stop error `⟨false, 9⟩` on its second,
so `Iterate` makes two invocations and returns that exact error. -/
theorem Iterate_callback_stops_witness :
    Iterate cfgPages (fun j _ => if j = 1 then some ⟨false, 9⟩ else none)
      2 ⟨0, 0, true⟩ 0 =
      (some (some ⟨false, 9⟩), ⟨1, 2, false⟩, 2) := by
  have h := Iterate_callback_stops cfgPages
    (fun j _ => if j = 1 then some ⟨false, 9⟩ else none) 1 (fun j => j)
    (fun j => j) ⟨0, 0, true⟩ 0 2 ⟨false, 9⟩ (by omega) rfl rfl
    (fun j hj => rfl) (fun j hj => by interval_cases j; rfl)
    (fun j hj => by interval_cases j; rfl) rfl
  simpa using h

/-- C9 (spec-modelled): the context-threading core hands the
caller-supplied cancellation handle to `fetchNext`; an error observed by
that call — a cancellation in particular — is treated as an ordinary fetch
error: `GetCtx` propagates it verbatim with all cursor state unchanged, an
`IterateCtx` step propagates a non-stop fetch error verbatim without
invoking the callback or changing state, and the final conjunct shows via
an instrumented fetch that the handle received by `fetchNext` is exactly
the caller's `ctx` together with the current token. -/
theorem GetCtx_threads_cancellation (cfg : ConfigCtx Ctx Request Response)
    (cb : Nat → Response → Option GoError) (ctx : Ctx)
    (c : Cursor Request Response) (r : Response) (e : GoError) (fuel k : Nat)
    (hnext : c.next = true)
    (hfetch : cfg.fetchNext ctx c.request = (r, some e)) :
    GetCtx cfg ctx c = (c.response, some e, c) ∧
    (e.isStop = false →
      IterateCtx cfg cb ctx (fuel + 1) c k = (some (some e), c, k)) ∧
    ∀ (spy : ConfigCtx Ctx Request (Ctx × Request))
      (c2 : Cursor Request (Ctx × Request)),
      c2.next = true →
      (∀ cx i, spy.fetchNext cx i = ((cx, i), none)) →
      (GetCtx spy ctx c2).1 = (ctx, c2.request) := by
  refine ⟨?_, fun hns => ?_, fun spy c2 h2 hspy => ?_⟩
  · simp [GetCtx, hnext, hfetch]
  · simp [IterateCtx, Next, GetCtx, hnext, hfetch, hns]
  · simp [GetCtx, h2, hspy ctx c2.request]

/-- Witness for C9 at `cfgCtxFail` with handle `2` and token `3`: the error
`⟨false, 203⟩` records that the fetch saw exactly that handle and token,
comes back verbatim, and the cursor is unchanged. -/
theorem GetCtx_threads_cancellation_witness :
    GetCtx cfgCtxFail 2 ⟨5, 3, true⟩ = (5, some ⟨false, 203⟩, ⟨5, 3, true⟩) :=
  (GetCtx_threads_cancellation cfgCtxFail (fun _ _ => none) 2 ⟨5, 3, true⟩
    0 ⟨false, 203⟩ 0 0 rfl rfl).1

/-- Witness for C10 at `cfgStopFetch`, whose fetch error `⟨true, 3⟩` wraps
the stop sentinel without being `ErrStop` itself. -/
theorem Iterate_swallows_stop_fetch_witness :
    Iterate cfgStopFetch (fun _ _ => none) 1 ⟨9, 4, true⟩ 0 =
      (some none, ⟨0, 4, true⟩, 0) :=
  Iterate_swallows_stop_fetch cfgStopFetch (fun _ _ => none) 0 0
    ⟨9, 4, true⟩ 0 ⟨true, 3⟩ rfl rfl rfl

end Iter
